import Mathlib

/-!
Verification development for the remote-ws-proxy repository: a three-party
relay (relay server, LAN agent, local proxy) that tunnels HTTP requests and
raw TCP CONNECT streams over a framed message protocol.

The definitions below are a shallow embedding of the JavaScript sources:
pure helpers become Lean functions, the stateful per-session routing code
becomes explicit state passing returning the new state together with the
list of externally visible actions (socket sends, stream writes, socket
closes).  Byte buffers are lists of values below 256, JS Maps are
association lists in insertion order, and JS truthiness tests on optional
fields are modelled explicitly.
-/

/-- A byte, as stored in a Node Buffer. -/
abbrev Byte := Fin 256

/-! ### Base64 payload codec (src common.js: encodeBody / decodeBody)

The source delegates to Node's Buffer base64 codec
(buffer.toString with base64, Buffer.from with base64); that platform
primitive is embedded here as standard RFC 4648 base64 with padding,
which is what Node produces and consumes. -/

/-- The 64-character base64 alphabet used by Node's Buffer codec. -/
def b64Alphabet : List Char :=
  "ABCDEFGHIJKLMNOPQRSTUVWXYZabcdefghijklmnopqrstuvwxyz0123456789+/".data

/-- Character for a six-bit group. -/
def b64Char (n : Nat) : Char := b64Alphabet.getD n '?'

/-- Index of a character in the base64 alphabet. -/
def b64Index (c : Char) : Nat := b64Alphabet.indexOf c

/-- Truncate a natural number into a byte. -/
def byteOf (n : Nat) : Byte := ⟨n % 256, Nat.mod_lt _ (by omega)⟩

/-- Base64-encode a byte buffer, three bytes to four characters, with
padding on the final partial group. -/
def encodeChunks : List Byte → List Char
  | [] => []
  | [a] => [b64Char (a.val / 4), b64Char (a.val % 4 * 16), '=', '=']
  | [a, b] =>
    [b64Char (a.val / 4), b64Char (a.val % 4 * 16 + b.val / 16),
     b64Char (b.val % 16 * 4), '=']
  | a :: b :: c :: rest =>
    b64Char (a.val / 4) :: b64Char (a.val % 4 * 16 + b.val / 16) ::
    b64Char (b.val % 16 * 4 + c.val / 64) :: b64Char (c.val % 64) ::
    encodeChunks rest

/-- Base64-decode, four characters to three bytes, honouring padding. -/
def decodeChunks : List Char → List Byte
  | c0 :: c1 :: c2 :: c3 :: rest =>
    let s0 := b64Index c0
    let s1 := b64Index c1
    if c2 = '=' then [byteOf (s0 * 4 + s1 / 16)]
    else
      let s2 := b64Index c2
      if c3 = '=' then [byteOf (s0 * 4 + s1 / 16), byteOf (s1 % 16 * 16 + s2 / 4)]
      else
        byteOf (s0 * 4 + s1 / 16) :: byteOf (s1 % 16 * 16 + s2 / 4) ::
        byteOf (s2 % 4 * 64 + b64Index c3) :: decodeChunks rest
  | _ => []

/-- Embedding of encodeBody: a missing or empty buffer encodes as the
empty string, otherwise the buffer is base64-encoded. -/
def encodeBody : Option (List Byte) → String
  | none => ""
  | some b => if b.length = 0 then "" else String.mk (encodeChunks b)

/-- Embedding of decodeBody: a falsy (empty) string decodes to the empty
buffer, otherwise the string is base64-decoded. -/
def decodeBody (s : String) : List Byte :=
  if s = "" then [] else decodeChunks s.data

theorem b64Index_b64Char_fin : ∀ n : Fin 64, b64Index (b64Char n.val) = n.val := by
  decide

theorem b64Char_ne_pad_fin : ∀ n : Fin 64, b64Char n.val ≠ '=' := by
  decide

theorem b64Index_b64Char (n : Nat) (h : n < 64) : b64Index (b64Char n) = n :=
  b64Index_b64Char_fin ⟨n, h⟩

theorem b64Char_ne_pad (n : Nat) (h : n < 64) : b64Char n ≠ '=' :=
  b64Char_ne_pad_fin ⟨n, h⟩

theorem decode_encode_chunks : ∀ l : List Byte, decodeChunks (encodeChunks l) = l
  | [] => rfl
  | [a] => by
    have ha := a.isLt
    show decodeChunks [b64Char (a.val / 4), b64Char (a.val % 4 * 16), '=', '='] = [a]
    simp only [decodeChunks, if_pos rfl, if_true]
    rw [b64Index_b64Char (a.val / 4) (by omega),
        b64Index_b64Char (a.val % 4 * 16) (by omega)]
    simp only [byteOf, List.cons.injEq, and_true]
    apply Fin.ext
    simp only []
    omega
  | [a, b] => by
    have ha := a.isLt
    have hb := b.isLt
    show decodeChunks
        [b64Char (a.val / 4), b64Char (a.val % 4 * 16 + b.val / 16),
         b64Char (b.val % 16 * 4), '='] = [a, b]
    simp only [decodeChunks, if_neg (b64Char_ne_pad (b.val % 16 * 4) (by omega)),
      if_pos rfl, if_true]
    rw [b64Index_b64Char (a.val / 4) (by omega),
        b64Index_b64Char (a.val % 4 * 16 + b.val / 16) (by omega),
        b64Index_b64Char (b.val % 16 * 4) (by omega)]
    simp only [byteOf, List.cons.injEq, and_true]
    constructor
    · apply Fin.ext; simp only []; omega
    · apply Fin.ext; simp only []; omega
  | a :: b :: c :: rest => by
    have ha := a.isLt
    have hb := b.isLt
    have hc := c.isLt
    show decodeChunks
        (b64Char (a.val / 4) :: b64Char (a.val % 4 * 16 + b.val / 16) ::
         b64Char (b.val % 16 * 4 + c.val / 64) :: b64Char (c.val % 64) ::
         encodeChunks rest) = a :: b :: c :: rest
    simp only [decodeChunks,
      if_neg (b64Char_ne_pad (b.val % 16 * 4 + c.val / 64) (by omega)),
      if_neg (b64Char_ne_pad (c.val % 64) (by omega))]
    rw [b64Index_b64Char (a.val / 4) (by omega),
        b64Index_b64Char (a.val % 4 * 16 + b.val / 16) (by omega),
        b64Index_b64Char (b.val % 16 * 4 + c.val / 64) (by omega),
        b64Index_b64Char (c.val % 64) (by omega)]
    rw [decode_encode_chunks rest]
    simp only [byteOf, List.cons.injEq, and_true]
    refine ⟨?_, ?_, ?_⟩
    · apply Fin.ext; simp only []; omega
    · apply Fin.ext; simp only []; omega
    · apply Fin.ext; simp only []; omega

theorem encodeChunks_ne_nil : ∀ l : List Byte, l ≠ [] → encodeChunks l ≠ []
  | [], h => absurd rfl h
  | [_], _ => by simp [encodeChunks]
  | [_, _], _ => by simp [encodeChunks]
  | _ :: _ :: _ :: _, _ => by simp [encodeChunks]

/-- C8: decodeBody inverts encodeBody on every byte buffer, the empty and
absent buffers encode as the empty string, and the empty string decodes to
an empty buffer. -/
theorem base64_roundtrip :
    (∀ b : List Byte, decodeBody (encodeBody (some b)) = b) ∧
    encodeBody none = "" ∧ decodeBody "" = [] := by
  refine ⟨?_, rfl, rfl⟩
  intro b
  by_cases hb : b = []
  · subst hb; rfl
  · have hlen : b.length ≠ 0 := by
      simpa [List.length_eq_zero] using hb
    simp only [encodeBody, if_neg hlen]
    have hne : encodeChunks b ≠ [] := encodeChunks_ne_nil b hb
    have hs : String.mk (encodeChunks b) ≠ "" := by
      intro h
      exact hne (by simpa using congrArg String.data h)
    simp only [decodeBody, if_neg hs]
    exact decode_encode_chunks b

/-! ### Association-list embedding of JS Map

JS Maps preserve insertion order; setting an existing key keeps its
position, setting a new key appends, deleting removes the entry. -/

/-- Look up the value stored under a key. -/
def mapGet {α β : Type} [DecidableEq α] (k : α) : List (α × β) → Option β
  | [] => none
  | (k', v) :: rest => if k' = k then some v else mapGet k rest

/-- Store a value under a key, JS-Map style. -/
def mapSet {α β : Type} [DecidableEq α] (k : α) (v : β) : List (α × β) → List (α × β)
  | [] => [(k, v)]
  | (k', v') :: rest => if k' = k then (k, v) :: rest else (k', v') :: mapSet k v rest

/-- Delete every entry stored under a key. -/
def mapDel {α β : Type} [DecidableEq α] (k : α) (l : List (α × β)) : List (α × β) :=
  l.filter fun p => p.1 ≠ k

theorem mapGet_mapSet {α β : Type} [DecidableEq α] (k : α) (v : β) :
    ∀ l : List (α × β), mapGet k (mapSet k v l) = some v
  | [] => by simp [mapGet, mapSet]
  | (k', v') :: rest => by
    by_cases h : k' = k
    · simp [mapGet, mapSet, h]
    · simp [mapGet, mapSet, h, mapGet_mapSet k v rest]

theorem mapGet_mapSet_ne {α β : Type} [DecidableEq α] (k j : α) (v : β) (hne : j ≠ k) :
    ∀ l : List (α × β), mapGet j (mapSet k v l) = mapGet j l
  | [] => by
    have hkj : ¬ k = j := fun h => hne h.symm
    simp [mapGet, mapSet, hkj]
  | (k', v') :: rest => by
    have hkj : ¬ k = j := fun h => hne h.symm
    by_cases h : k' = k
    · subst h
      simp [mapGet, mapSet, hkj]
    · simp only [mapSet, if_neg h, mapGet]
      by_cases h2 : k' = j
      · simp [h2]
      · simp [h2, mapGet_mapSet_ne k j v hne rest]

theorem mapGet_append_nil {α β : Type} [DecidableEq α] (k : α) (v : β) :
    ∀ l : List (α × β), mapGet k l = none → mapGet k (l ++ [(k, v)]) = some v
  | [], _ => by simp [mapGet]
  | (k', v') :: rest, h => by
    by_cases hk : k' = k
    · simp [mapGet, hk] at h
    · simp only [mapGet, if_neg hk] at h
      simpa [mapGet, hk] using mapGet_append_nil k v rest h

/-! ### The frame protocol

One constructor per frame type of the wire protocol.  Routing only
inspects the type tag and the id, so request payloads and response
headers are carried opaquely. -/

/-- Payload of an http-request frame as built by the local proxy. -/
structure HttpReq where
  method : String
  url : String
  headers : List (String × String)
  bodyBase64 : String
deriving DecidableEq, Repr

/-- A protocol frame: one JSON message exchanged between the roles. -/
inductive Frame
  | hello (role : Option String) (session : Option String) (protocolVersion : Option Nat)
  | helloAck (role : String) (session : String) (protocolVersion : Nat)
  | httpRequest (id : String) (request : HttpReq)
  | httpResponse (id : String) (status : Option Nat) (headers : List (String × String))
      (bodyBase64 : Option String) (error : Option String)
  | connectStart (id : String) (host : Option String) (port : Option Nat)
  | connectAck (id : String)
  | connectError (id : String) (message : String)
  | connectData (id : String) (dataBase64 : String)
  | connectEnd (id : String)
  | errorMsg (message : String)
deriving DecidableEq, Repr

/-- Type tag of a frame, as the JS payload.type string. -/
def Frame.typeName : Frame → String
  | .hello .. => "hello"
  | .helloAck .. => "hello-ack"
  | .httpRequest .. => "http-request"
  | .httpResponse .. => "http-response"
  | .connectStart .. => "connect-start"
  | .connectAck .. => "connect-ack"
  | .connectError .. => "connect-error"
  | .connectData .. => "connect-data"
  | .connectEnd .. => "connect-end"
  | .errorMsg .. => "error"

/-- Protocol version constant.  Modelled from the spec: the revision of
common.js defining PROTOCOL_VERSION is not under src; the spec fixes it
as a single integer literal agreed by both sides, so any fixed literal is
faithful (the claims only compare it for equality). -/
def PROTOCOL_VERSION : Nat := 1

/-- Truthiness of an optional string field (missing or empty is falsy). -/
def truthyStr : Option String → Bool
  | none => false
  | some s => s ≠ ""

/-- Truthiness of an optional number field (missing or zero is falsy). -/
def truthyNat : Option Nat → Bool
  | none => false
  | some n => n ≠ 0

/-! ### Relay server model (src unnamed part 001, startServer)

Sockets and long-poll stream responses are identified by numbers.  The
environment tells which websockets are OPEN and which stream writes
succeed; everything the relay does to the outside world is recorded as an
action. -/

/-- External world assumptions: which sockets are open, which stream
writes succeed. -/
structure Env where
  wsOpen : Nat → Bool
  streamOk : Nat → Bool

/-- Externally visible effect of a relay step. -/
inductive SAct
  | deliver (dest : String) (wsSock : Option Nat) (stream : Option Nat) (f : Frame)
  | closeSock (sock : Nat) (code : Nat) (reason : String)
  | sendRaw (sock : Nat) (f : Frame)
deriving DecidableEq, Repr

/-- Per-role channel: current websocket, FIFO frame queue, attached
long-poll streams. -/
structure Channel where
  ws : Option Nat := none
  queue : List Frame := []
  streams : List Nat := []
deriving DecidableEq, Repr

/-- Per-session relay state. -/
structure SessionState where
  lanCh : Channel := {}
  proxyCh : Channel := {}
  requests : List (String × String) := []
  tunnels : List (String × String) := []
deriving DecidableEq, Repr

/-- Whole relay state: sessions by name, and the socket metadata map. -/
structure ServerState where
  sessions : List (String × SessionState) := []
  connMeta : List (Nat × (String × String)) := []
deriving DecidableEq, Repr

/-- Channel of a role name inside a session (undefined for other names,
like the JS state lookup by meta.role). -/
def SessionState.channel (st : SessionState) (role : String) : Option Channel :=
  if role = "lan" then some st.lanCh
  else if role = "proxy" then some st.proxyCh
  else none

/-- Replace the channel of a role name. -/
def SessionState.setChannel (st : SessionState) (role : String) (c : Channel) : SessionState :=
  if role = "lan" then { st with lanCh := c }
  else if role = "proxy" then { st with proxyCh := c }
  else st

/-- Embedding of respondChannel when the websocket branch does not apply:
try the first attached stream, else append to the queue. -/
def respondChannelNoWs (env : Env) (dest : String) (ch : Channel) (f : Frame) :
    Channel × List SAct × Bool :=
  match ch.streams with
  | res :: _ =>
    if env.streamOk res then (ch, [SAct.deliver dest none (some res) f], true)
    else ({ ch with queue := ch.queue ++ [f] }, [], false)
  | [] => ({ ch with queue := ch.queue ++ [f] }, [], false)

/-- Embedding of respondChannel: write to the live websocket, else to the
first attached stream, else append to the channel queue. -/
def respondChannel (env : Env) (dest : String) (ch : Channel) (f : Frame) :
    Channel × List SAct × Bool :=
  match ch.ws with
  | some w =>
    if env.wsOpen w then (ch, [SAct.deliver dest (some w) none f], true)
    else respondChannelNoWs env dest ch f
  | none => respondChannelNoWs env dest ch f

/-- Send a list of frames through respondChannel in order, threading the
channel state. -/
def sendAll (env : Env) (dest : String) (ch : Channel) : List Frame → Channel × List SAct
  | [] => (ch, [])
  | f :: fs =>
    let r := respondChannel env dest ch f
    let rest := sendAll env dest r.1 fs
    (rest.1, r.2.1 ++ rest.2)

/-- Embedding of the drain loop of drainQueueToStream: shift frames off
the queue and write them to the stream, stopping at the first failed
write (the shifted frame is dropped, as in the source). -/
def drainLoop (env : Env) (dest : String) (res : Nat) : List Frame → List Frame × List SAct
  | [] => ([], [])
  | f :: rest =>
    if env.streamOk res then
      let r := drainLoop env dest res rest
      (r.1, SAct.deliver dest none (some res) f :: r.2)
    else (rest, [])

/-- Embedding of the stream-attach path of the api stream endpoint:
push the response onto the channel's stream list, then drain the queue. -/
def attachStream (env : Env) (dest : String) (ch : Channel) (res : Nat) :
    Channel × List SAct :=
  let ch1 := { ch with streams := ch.streams ++ [res] }
  let r := drainLoop env dest res ch1.queue
  ({ ch1 with queue := r.1 }, r.2)

/-- Fresh session state, as created lazily by getSession. -/
def emptySession : SessionState := {}

/-- Embedding of getSession: look up the session, creating it lazily. -/
def getSession (S : ServerState) (name : String) : ServerState × SessionState :=
  match mapGet name S.sessions with
  | some st => (S, st)
  | none => ({ S with sessions := S.sessions ++ [(name, emptySession)] }, emptySession)

/-- Write a session state back into the server state. -/
def ServerState.setSession (S : ServerState) (name : String) (st : SessionState) : ServerState :=
  { S with sessions := mapSet name st S.sessions }

/-- Sender description passed to handleHello: optional websocket and the
optional protocolVersion field of the hello. -/
structure Sender where
  ws : Option Nat
  protocolVersion : Option Nat

/-- Protocol mismatch message built by handleHello. -/
def mismatchMsg (v : Option Nat) : String :=
  "Protocol mismatch (server " ++ toString PROTOCOL_VERSION ++ ", client "
    ++ (match v with | some n => toString n | none => "undefined") ++ ")"

/-- Embedding of handleHello: create the session, validate role and
protocol version, install the websocket (closing a displaced one), reply
hello-ack.  The third component is the error result the JS function
returns to its caller. -/
def handleHello (env : Env) (S : ServerState) (sessionName : String) (role : String)
    (sender : Sender) : ServerState × List SAct × Option String :=
  let g := getSession S sessionName
  let S1 := g.1
  let st := g.2
  if role ≠ "lan" ∧ role ≠ "proxy" then (S1, [], some "Invalid role")
  else if truthyNat sender.protocolVersion ∧ sender.protocolVersion ≠ some PROTOCOL_VERSION then
    (S1, [], some (mismatchMsg sender.protocolVersion))
  else
    let ch0 := if role = "lan" then st.lanCh else st.proxyCh
    let install :=
      match sender.ws with
      | some w =>
        let ca :=
          match ch0.ws with
          | some old => if old ≠ w then [SAct.closeSock old 1000 "Replaced by new connection"] else []
          | none => []
        ({ ch0 with ws := some w }, ca)
      | none => (ch0, ([] : List SAct))
    let r := respondChannel env role install.1
      (Frame.helloAck role sessionName PROTOCOL_VERSION)
    let st' := st.setChannel role r.1
    (S1.setSession sessionName st', install.2 ++ r.2.1, none)

/-- Embedding of the hello branch of handleWsMessage: record connection
metadata, then run handleHello with the websocket as sender.  The error
result of handleHello is discarded, exactly as in the source. -/
def handleWsHello (env : Env) (S : ServerState) (w : Nat)
    (session role : Option String) (pv : Option Nat) : ServerState × List SAct :=
  match session, role with
  | some s, some r =>
    if s ≠ "" ∧ r ≠ "" then
      let S1 := { S with connMeta := mapSet w (s, r) S.connMeta }
      let h := handleHello env S1 s r { ws := some w, protocolVersion := pv }
      (h.1, h.2.1)
    else (S, [SAct.sendRaw w (Frame.errorMsg "Invalid hello payload")])
  | _, _ => (S, [SAct.sendRaw w (Frame.errorMsg "Invalid hello payload")])

/-- Embedding of routeFromProxy: record ids, forward to the lan channel,
report unknown frame types back to the proxy channel. -/
def routeFromProxy (env : Env) (S : ServerState) (sessionName : String) (f : Frame) :
    ServerState × List SAct :=
  let g := getSession S sessionName
  let S1 := g.1
  let st := g.2
  match f with
  | .httpRequest id _ =>
    let st := { st with requests := mapSet id "proxy" st.requests }
    let r := respondChannel env "lan" st.lanCh f
    (S1.setSession sessionName { st with lanCh := r.1 }, r.2.1)
  | .connectStart id _ _ =>
    let st := { st with tunnels := mapSet id "proxy" st.tunnels }
    let r := respondChannel env "lan" st.lanCh f
    (S1.setSession sessionName { st with lanCh := r.1 }, r.2.1)
  | .connectData _ _ =>
    let r := respondChannel env "lan" st.lanCh f
    (S1.setSession sessionName { st with lanCh := r.1 }, r.2.1)
  | .connectEnd _ =>
    let r := respondChannel env "lan" st.lanCh f
    (S1.setSession sessionName { st with lanCh := r.1 }, r.2.1)
  | _ =>
    let r := respondChannel env "proxy" st.proxyCh
      (Frame.errorMsg ("Unknown message type from proxy: " ++ f.typeName))
    (S1.setSession sessionName { st with proxyCh := r.1 }, r.2.1)

/-- Embedding of routeFromLan: forward to the recorded originator,
delete terminal ids, report unknown frame types back to the lan channel. -/
def routeFromLan (env : Env) (S : ServerState) (sessionName : String) (f : Frame) :
    ServerState × List SAct :=
  let g := getSession S sessionName
  let S1 := g.1
  let st := g.2
  match f with
  | .httpResponse id _ _ _ _ =>
    let r :=
      if mapGet id st.requests = some "proxy" then respondChannel env "proxy" st.proxyCh f
      else (st.proxyCh, [], false)
    let st := { st with proxyCh := r.1, requests := mapDel id st.requests }
    (S1.setSession sessionName st, r.2.1)
  | .connectAck id =>
    let r :=
      if mapGet id st.tunnels = some "proxy" then respondChannel env "proxy" st.proxyCh f
      else (st.proxyCh, [], false)
    (S1.setSession sessionName { st with proxyCh := r.1 }, r.2.1)
  | .connectData id _ =>
    let r :=
      if mapGet id st.tunnels = some "proxy" then respondChannel env "proxy" st.proxyCh f
      else (st.proxyCh, [], false)
    (S1.setSession sessionName { st with proxyCh := r.1 }, r.2.1)
  | .connectError id _ =>
    let r :=
      if mapGet id st.tunnels = some "proxy" then respondChannel env "proxy" st.proxyCh f
      else (st.proxyCh, [], false)
    let st := { st with proxyCh := r.1, tunnels := mapDel id st.tunnels }
    (S1.setSession sessionName st, r.2.1)
  | .connectEnd id =>
    let r :=
      if mapGet id st.tunnels = some "proxy" then respondChannel env "proxy" st.proxyCh f
      else (st.proxyCh, [], false)
    let st := { st with proxyCh := r.1, tunnels := mapDel id st.tunnels }
    (S1.setSession sessionName st, r.2.1)
  | _ =>
    let r := respondChannel env "lan" st.lanCh
      (Frame.errorMsg ("Unknown message type from LAN: " ++ f.typeName))
    (S1.setSession sessionName { st with lanCh := r.1 }, r.2.1)

/-- Frames synthesized toward the proxy for the outstanding
proxy-originated requests at a LAN disconnect. -/
def lanDiscoReqFrames (reqs : List (String × String)) : List Frame :=
  reqs.filterMap fun p =>
    if p.2 = "proxy" then
      some (Frame.httpResponse p.1 none [] none (some "LAN disconnected"))
    else none

/-- Frames synthesized toward the proxy for the active proxy-originated
tunnels at a LAN disconnect. -/
def lanDiscoTunFrames (tuns : List (String × String)) : List Frame :=
  tuns.filterMap fun p =>
    if p.2 = "proxy" then some (Frame.connectError p.1 "LAN disconnected") else none

/-- The lan branch of cleanupWs: fail every proxy-originated request and
tunnel toward the proxy channel, then clear both maps. -/
def cleanupLanBranch (env : Env) (st : SessionState) : SessionState × List SAct :=
  let r1 := sendAll env "proxy" st.proxyCh (lanDiscoReqFrames st.requests)
  let st1 := { st with proxyCh := r1.1, requests := [] }
  let r2 := sendAll env "proxy" st1.proxyCh (lanDiscoTunFrames st1.tunnels)
  ({ st1 with proxyCh := r2.1, tunnels := [] }, r1.2 ++ r2.2)

/-- The proxy branch of cleanupWs: drop the proxy's requests and end its
tunnels toward the lan channel. -/
def cleanupProxyBranch (env : Env) (st : SessionState) : SessionState × List SAct :=
  let st1 := { st with requests := st.requests.filter fun p => p.2 ≠ "proxy" }
  let tunFrames := st1.tunnels.filterMap fun p =>
    if p.2 = "proxy" then some (Frame.connectEnd p.1) else none
  let r1 := sendAll env "lan" st1.lanCh tunFrames
  ({ st1 with lanCh := r1.1, tunnels := st1.tunnels.filter fun p => p.2 ≠ "proxy" }, r1.2)

/-- Embedding of cleanupWs: on close of a registered websocket, detach it
from its channel; a LAN disconnect fails every proxy-originated request
and tunnel toward the proxy channel and clears both maps; a proxy
disconnect drops its requests and ends its tunnels toward the lan
channel. -/
def cleanupWs (env : Env) (S : ServerState) (w : Nat) : ServerState × List SAct :=
  match mapGet w S.connMeta with
  | none => (S, [])
  | some meta =>
    let sess := meta.1
    let role := meta.2
    match mapGet sess S.sessions with
    | none => (S, [])
    | some st =>
      let st :=
        match st.channel role with
        | some ch => if ch.ws = some w then st.setChannel role { ch with ws := none } else st
        | none => st
      if role = "lan" then
        let r := cleanupLanBranch env st
        ({ S with sessions := mapSet sess r.1 S.sessions, connMeta := mapDel w S.connMeta },
          r.2)
      else if role = "proxy" then
        let r := cleanupProxyBranch env st
        ({ S with sessions := mapSet sess r.1 S.sessions, connMeta := mapDel w S.connMeta },
          r.2)
      else
        ({ S with sessions := mapSet sess st S.sessions, connMeta := mapDel w S.connMeta },
          [])

/-! ### Local proxy model (src proxy.js, canonical revision)

The pending-request map and the CONNECT-tunnel map of startProxy.
Browser response handles and client sockets are numbers; effects are
recorded as actions. -/

/-- Pending http-request bookkeeping on the local proxy: the browser
response handle and whether its headers were already written. -/
structure PendEntry where
  res : Nat
  headersSent : Bool
deriving DecidableEq, Repr

/-- CONNECT tunnel bookkeeping on the local proxy. -/
structure Tunnel where
  clientSock : Nat
  acked : Bool
  queue : List (List Byte)
  head : List Byte
deriving DecidableEq, Repr

/-- Local proxy state: pending http requests and open tunnels. -/
structure ProxyState where
  pendingHttp : List (String × PendEntry) := []
  tunnels : List (String × Tunnel) := []
deriving DecidableEq, Repr

/-- Externally visible effect of a local proxy step. -/
inductive PAct
  | writeHead (res : Nat) (status : Nat) (headers : List (String × String))
  | endRes (res : Nat) (body : String)
  | endResBytes (res : Nat) (body : List Byte)
  | writeSock (sock : Nat) (text : String)
  | writeSockBytes (sock : Nat) (bytes : List Byte)
  | endSock (sock : Nat)
  | sendFrame (f : Frame)
  | clearTimer (id : String)
deriving DecidableEq, Repr

/-- Status actually written for an http-response: payload.status or 500
when the field is falsy. -/
def statusOr500 : Option Nat → Nat
  | none => 500
  | some n => if n = 0 then 500 else n

/-- Embedding of the http-response branch of handleServerMessage: an id
with no pending entry is ignored; otherwise the timer is cleared, the
entry deleted and the browser answered (502 with the error text, or the
forwarded status, headers and decoded body). -/
def handleHttpResponseMsg (st : ProxyState) (id : String) (status : Option Nat)
    (headers : List (String × String)) (bodyBase64 : Option String)
    (error : Option String) : ProxyState × List PAct :=
  match mapGet id st.pendingHttp with
  | none => (st, [])
  | some e =>
    let st := { st with pendingHttp := mapDel id st.pendingHttp }
    match error with
    | some err =>
      (st, [PAct.clearTimer id] ++
        (if e.headersSent then [] else [PAct.writeHead e.res 502 [("content-type", "text/plain")]]) ++
        [PAct.endRes e.res err])
    | none =>
      (st, [PAct.clearTimer id] ++
        (if e.headersSent then [] else [PAct.writeHead e.res (statusOr500 status) headers]) ++
        [PAct.endResBytes e.res (decodeBody (bodyBase64.getD ""))])

/-- Embedding of the 30-second timer callback registered by
handleHttpRequest: delete the pending entry, answer 504 Gateway Timeout.
The callback closes over the entry it registered. -/
def timeoutFire (st : ProxyState) (id : String) (e : PendEntry) : ProxyState × List PAct :=
  ({ st with pendingHttp := mapDel id st.pendingHttp },
    (if e.headersSent then [] else [PAct.writeHead e.res 504 [("content-type", "text/plain")]]) ++
    [PAct.endRes e.res "Gateway Timeout"])

/-- Flush loop of the connect-ack branch: each queued pre-ack chunk is
shifted off and forwarded as one connect-data frame. -/
def flushQueue (id : String) : List (List Byte) → List PAct
  | [] => []
  | c :: rest => PAct.sendFrame (Frame.connectData id (encodeBody (some c))) :: flushQueue id rest

/-- Embedding of the connect-ack branch of handleServerMessage: reply 200
Connection Established to the client, mark the tunnel acked, forward the
head bytes when non-empty, then flush the pre-ack queue in order. -/
def handleConnectAckMsg (st : ProxyState) (id : String) : ProxyState × List PAct :=
  match mapGet id st.tunnels with
  | none => (st, [])
  | some t =>
    let acts :=
      [PAct.writeSock t.clientSock "HTTP/1.1 200 Connection Established\r\n\r\n"] ++
      (if t.head ≠ [] then [PAct.sendFrame (Frame.connectData id (encodeBody (some t.head)))] else []) ++
      flushQueue id t.queue
    ({ st with tunnels := mapSet id { t with acked := true, queue := [] } st.tunnels }, acts)

/-- Embedding of the client-socket data handler installed by
handleConnect: before the ack the chunk is queued, after it the chunk is
forwarded as connect-data. -/
def handleClientData (st : ProxyState) (id : String) (chunk : List Byte) :
    ProxyState × List PAct :=
  match mapGet id st.tunnels with
  | none => (st, [])
  | some t =>
    if t.acked then (st, [PAct.sendFrame (Frame.connectData id (encodeBody (some chunk)))])
    else ({ st with tunnels := mapSet id { t with queue := t.queue ++ [chunk] } st.tunnels }, [])

/-! ### LAN agent model (src unnamed part 001, startLan handleMessage) -/

/-- LAN agent state: open tunnel sockets by id. -/
structure LanState where
  tunnels : List (String × Nat) := []
deriving DecidableEq, Repr

/-- Externally visible effect of a LAN agent step. -/
inductive LAct
  | send (f : Frame)
  | sockWrite (sock : Nat) (bytes : List Byte)
  | sockHalfClose (sock : Nat)
deriving DecidableEq, Repr

/-- Outcome of the connect attempt made for a connect-start frame. -/
inductive ConnOutcome
  | ok
  | fail (msg : String)
deriving DecidableEq, Repr

/-- Event later reported by an established target socket. -/
inductive SockEvent
  | data (chunk : List Byte)
  | sockErr (msg : String)
  | sockEnd
deriving DecidableEq, Repr

/-- JS error messages fall back to a default when empty (err.message is
falsy). -/
def msgOr (dflt : String) (m : String) : String :=
  if m = "" then dflt else m

/-- Frames emitted by the handlers installed on an established tunnel
socket: data chunks stream as connect-data; an error or end emits the
terminal frame, destroys the socket and stops the stream. -/
def lanSockFrames (id : String) : List SockEvent → List Frame
  | [] => []
  | .data c :: rest => Frame.connectData id (encodeBody (some c)) :: lanSockFrames id rest
  | .sockErr m :: _ => [Frame.connectError id (msgOr "Socket error" m)]
  | .sockEnd :: _ => [Frame.connectEnd id]

/-- Frames the LAN agent emits for one connect-start frame: an invalid
host or port is answered connect-error, a failed connect is answered
connect-error, and a successful connect is answered connect-ack followed
by the frames the socket handlers produce. -/
def lanConnectStart (id : String) (host : Option String) (port : Option Nat)
    (outcome : ConnOutcome) (events : List SockEvent) : List Frame :=
  if truthyStr host && truthyNat port then
    match outcome with
    | .fail msg => [Frame.connectError id (msgOr "Socket error" msg)]
    | .ok => Frame.connectAck id :: lanSockFrames id events
  else [Frame.connectError id "Invalid host/port"]

/-- Embedding of the connect-data branch of the LAN agent's
handleMessage: write to the tunnel socket when it exists, otherwise
answer connect-error Unknown tunnel. -/
def lanHandleConnectData (st : LanState) (id : String) (dataBase64 : String) :
    LanState × List LAct :=
  match mapGet id st.tunnels with
  | some sock => (st, [LAct.sockWrite sock (decodeBody dataBase64)])
  | none => (st, [LAct.send (Frame.connectError id "Unknown tunnel")])

/-- Embedding of the connect-end branch of the LAN agent's handleMessage:
half-close the tunnel socket and drop the entry when it exists. -/
def lanHandleConnectEnd (st : LanState) (id : String) : LanState × List LAct :=
  match mapGet id st.tunnels with
  | some sock => ({ st with tunnels := mapDel id st.tunnels }, [LAct.sockHalfClose sock])
  | none => (st, [])

/-! ### Routing lemmas -/

/-- A frame was emitted toward a channel: either written out by an
action, or waiting in the channel's queue. -/
def deliveredTo (dest : String) (acts : List SAct) (ch : Channel) (f : Frame) : Prop :=
  (∃ w s, SAct.deliver dest w s f ∈ acts) ∨ f ∈ ch.queue

theorem respondChannel_spec (env : Env) (dest : String) (ch : Channel) (f : Frame) :
    ((∃ w s, (respondChannel env dest ch f).2.1 = [SAct.deliver dest w s f]) ∧
      (respondChannel env dest ch f).1.queue = ch.queue) ∨
    ((respondChannel env dest ch f).2.1 = [] ∧
      (respondChannel env dest ch f).1.queue = ch.queue ++ [f]) := by
  rcases hw : ch.ws with _ | w
  · rcases hs : ch.streams with _ | ⟨r, rest⟩
    · right
      simp [respondChannel, respondChannelNoWs, hw, hs]
    · by_cases ho : env.streamOk r
      · left
        refine ⟨⟨none, some r, ?_⟩, ?_⟩ <;>
          simp [respondChannel, respondChannelNoWs, hw, hs, ho]
      · right
        constructor <;> simp [respondChannel, respondChannelNoWs, hw, hs, ho]
  · by_cases ho : env.wsOpen w
    · left
      refine ⟨⟨some w, none, ?_⟩, ?_⟩ <;> simp [respondChannel, hw, ho]
    · rcases hs : ch.streams with _ | ⟨r, rest⟩
      · right
        constructor <;> simp [respondChannel, respondChannelNoWs, hw, hs, ho]
      · by_cases hr : env.streamOk r
        · left
          refine ⟨⟨none, some r, ?_⟩, ?_⟩ <;>
            simp [respondChannel, respondChannelNoWs, hw, hs, ho, hr]
        · right
          constructor <;> simp [respondChannel, respondChannelNoWs, hw, hs, ho, hr]

theorem sendAll_queue_mono (env : Env) (dest : String) :
    ∀ (fs : List Frame) (ch : Channel),
      ∃ ext, (sendAll env dest ch fs).1.queue = ch.queue ++ ext
  | [], ch => ⟨[], by simp [sendAll]⟩
  | f :: fs, ch => by
    rcases respondChannel_spec env dest ch f with ⟨_, hq⟩ | ⟨_, hq⟩
    · obtain ⟨ext, hext⟩ := sendAll_queue_mono env dest fs (respondChannel env dest ch f).1
      exact ⟨ext, by simp only [sendAll]; rw [hext, hq]⟩
    · obtain ⟨ext, hext⟩ := sendAll_queue_mono env dest fs (respondChannel env dest ch f).1
      refine ⟨[f] ++ ext, ?_⟩
      simp only [sendAll]
      rw [hext, hq, List.append_assoc]

theorem sendAll_delivers (env : Env) (dest : String) :
    ∀ (fs : List Frame) (ch : Channel) (f : Frame), f ∈ fs →
      deliveredTo dest (sendAll env dest ch fs).2 (sendAll env dest ch fs).1 f
  | [], _, _, hf => absurd hf (List.not_mem_nil _)
  | g :: fs, ch, f, hf => by
    rcases List.mem_cons.mp hf with hf | hf
    · subst hf
      rcases respondChannel_spec env dest ch f with ⟨⟨w, s, hact⟩, _⟩ | ⟨_, hq⟩
      · left
        exact ⟨w, s, by
          simp only [sendAll]
          exact List.mem_append.mpr (Or.inl (hact ▸ List.mem_singleton.mpr rfl))⟩
      · right
        obtain ⟨ext, hext⟩ := sendAll_queue_mono env dest fs (respondChannel env dest ch f).1
        simp only [sendAll]
        rw [hext, hq]
        simp
    · have ih := sendAll_delivers env dest fs (respondChannel env dest ch g).1 f hf
      rcases ih with ⟨w, s, hact⟩ | hq
      · left
        exact ⟨w, s, by
          simp only [sendAll]
          exact List.mem_append.mpr (Or.inr hact)⟩
      · right
        simp only [sendAll]
        exact hq

theorem deliveredTo_queue_mono {dest : String} {acts acts' : List SAct}
    {ch ch' : Channel} {f : Frame}
    (h : deliveredTo dest acts ch f)
    (hacts : ∀ a, a ∈ acts → a ∈ acts')
    (hq : ∃ ext, ch'.queue = ch.queue ++ ext) :
    deliveredTo dest acts' ch' f := by
  rcases h with ⟨w, s, hm⟩ | hm
  · exact Or.inl ⟨w, s, hacts _ hm⟩
  · obtain ⟨ext, hext⟩ := hq
    right
    rw [hext]
    exact List.mem_append.mpr (Or.inl hm)

theorem cleanupLanBranch_spec (env : Env) (st : SessionState) :
    (cleanupLanBranch env st).1.requests = [] ∧
    (cleanupLanBranch env st).1.tunnels = [] ∧
    (∀ id, (id, "proxy") ∈ st.requests →
      deliveredTo "proxy" (cleanupLanBranch env st).2 (cleanupLanBranch env st).1.proxyCh
        (Frame.httpResponse id none [] none (some "LAN disconnected"))) ∧
    (∀ id, (id, "proxy") ∈ st.tunnels →
      deliveredTo "proxy" (cleanupLanBranch env st).2 (cleanupLanBranch env st).1.proxyCh
        (Frame.connectError id "LAN disconnected")) := by
  refine ⟨rfl, rfl, ?_, ?_⟩
  · intro id hid
    have hmem : Frame.httpResponse id none [] none (some "LAN disconnected") ∈
        lanDiscoReqFrames st.requests := by
      apply List.mem_filterMap.mpr
      exact ⟨(id, "proxy"), hid, by simp⟩
    have h1 := sendAll_delivers env "proxy" (lanDiscoReqFrames st.requests) st.proxyCh _ hmem
    apply deliveredTo_queue_mono h1
    · intro a ha
      show a ∈ _ ++ _
      exact List.mem_append.mpr (Or.inl ha)
    · exact sendAll_queue_mono env "proxy" _ _
  · intro id hid
    have hmem : Frame.connectError id "LAN disconnected" ∈ lanDiscoTunFrames st.tunnels := by
      apply List.mem_filterMap.mpr
      exact ⟨(id, "proxy"), hid, by simp⟩
    have h2 := sendAll_delivers env "proxy" (lanDiscoTunFrames st.tunnels)
      (sendAll env "proxy" st.proxyCh (lanDiscoReqFrames st.requests)).1 _ hmem
    apply deliveredTo_queue_mono h2
    · intro a ha
      show a ∈ _ ++ _
      exact List.mem_append.mpr (Or.inr ha)
    · exact ⟨[], (List.append_nil _).symm⟩

theorem setChannel_lan_requests (st : SessionState) (c : Channel) :
    ((st.setChannel "lan" c).requests = st.requests ∧
     (st.setChannel "lan" c).tunnels = st.tunnels ∧
     (st.setChannel "lan" c).proxyCh = st.proxyCh) := by
  simp [SessionState.setChannel]

/-- Detachment step of cleanupWs for a LAN-role websocket. -/
def detachLan (st : SessionState) (w : Nat) : SessionState :=
  if st.lanCh.ws = some w then st.setChannel "lan" { st.lanCh with ws := none } else st

theorem cleanupWs_lan_eq (env : Env) (S : ServerState) (w : Nat)
    (sess : String) (st : SessionState)
    (hmeta : mapGet w S.connMeta = some (sess, "lan"))
    (hsess : mapGet sess S.sessions = some st) :
    cleanupWs env S w =
      ({ S with
          sessions := mapSet sess (cleanupLanBranch env (detachLan st w)).1 S.sessions,
          connMeta := mapDel w S.connMeta },
       (cleanupLanBranch env (detachLan st w)).2) := by
  simp [cleanupWs, hmeta, hsess, SessionState.channel, detachLan]

theorem detachLan_requests (st : SessionState) (w : Nat) :
    (detachLan st w).requests = st.requests := by
  unfold detachLan; split
  · exact (setChannel_lan_requests st _).1
  · rfl

theorem detachLan_tunnels (st : SessionState) (w : Nat) :
    (detachLan st w).tunnels = st.tunnels := by
  unfold detachLan; split
  · exact (setChannel_lan_requests st _).2.1
  · rfl

theorem cleanupLanBranch_lanCh (env : Env) (st : SessionState) :
    (cleanupLanBranch env st).1.lanCh = st.lanCh := rfl

theorem cleanupWs_lan_spec (env : Env) (S : ServerState) (w : Nat)
    (sess : String) (st : SessionState)
    (hmeta : mapGet w S.connMeta = some (sess, "lan"))
    (hsess : mapGet sess S.sessions = some st) :
    ∃ st', mapGet sess (cleanupWs env S w).1.sessions = some st' ∧
      st'.requests = [] ∧ st'.tunnels = [] ∧
      st'.lanCh = (detachLan st w).lanCh ∧
      (∀ id, (id, "proxy") ∈ st.requests →
        deliveredTo "proxy" (cleanupWs env S w).2 st'.proxyCh
          (Frame.httpResponse id none [] none (some "LAN disconnected"))) ∧
      (∀ id, (id, "proxy") ∈ st.tunnels →
        deliveredTo "proxy" (cleanupWs env S w).2 st'.proxyCh
          (Frame.connectError id "LAN disconnected")) := by
  have hred := cleanupWs_lan_eq env S w sess st hmeta hsess
  obtain ⟨h1, h2, h3, h4⟩ := cleanupLanBranch_spec env (detachLan st w)
  refine ⟨(cleanupLanBranch env (detachLan st w)).1, ?_, h1, h2,
    cleanupLanBranch_lanCh env (detachLan st w), ?_, ?_⟩
  · rw [hred]
    exact mapGet_mapSet sess _ S.sessions
  · intro id hid
    rw [hred]
    exact h3 id (detachLan_requests st w ▸ hid)
  · intro id hid
    rw [hred]
    exact h4 id (detachLan_tunnels st w ▸ hid)

/-- C1: when the LAN socket of a session disconnects, the relay emits an
http-response frame with error LAN disconnected toward the proxy channel
for every proxy-originated id in the requests map, a connect-error frame
with message LAN disconnected for every proxy-originated id in the
tunnels map, and afterwards both maps of the session are empty. -/
theorem relay_lan_disconnect_cleanup (env : Env) (S : ServerState) (w : Nat)
    (sess : String) (st : SessionState)
    (hmeta : mapGet w S.connMeta = some (sess, "lan"))
    (hsess : mapGet sess S.sessions = some st) :
    ∃ st', mapGet sess (cleanupWs env S w).1.sessions = some st' ∧
      st'.requests = [] ∧ st'.tunnels = [] ∧
      (∀ id, (id, "proxy") ∈ st.requests →
        deliveredTo "proxy" (cleanupWs env S w).2 st'.proxyCh
          (Frame.httpResponse id none [] none (some "LAN disconnected"))) ∧
      (∀ id, (id, "proxy") ∈ st.tunnels →
        deliveredTo "proxy" (cleanupWs env S w).2 st'.proxyCh
          (Frame.connectError id "LAN disconnected")) := by
  obtain ⟨st', ha, hb, hc, _, hd, he⟩ := cleanupWs_lan_spec env S w sess st hmeta hsess
  exact ⟨st', ha, hb, hc, hd, he⟩

/-- All-permissive environment: every websocket is open and every stream
write succeeds. -/
def env0 : Env := ⟨fun _ => true, fun _ => true⟩

/-- Environment in which no websocket is open and no stream is writable. -/
def envClosed : Env := ⟨fun _ => false, fun _ => false⟩

def stC1 : SessionState :=
  { lanCh := { ws := some 7 }, proxyCh := {},
    requests := [("r1", "proxy")], tunnels := [("t1", "proxy")] }

def sC1 : ServerState :=
  { sessions := [("s", stC1)], connMeta := [(7, ("s", "lan"))] }

theorem relay_lan_disconnect_cleanup_witness :
    mapGet 7 sC1.connMeta = some ("s", "lan") ∧
    mapGet "s" sC1.sessions = some stC1 ∧
    (∃ st', mapGet "s" (cleanupWs env0 sC1 7).1.sessions = some st' ∧
      st'.requests = [] ∧ st'.tunnels = [] ∧
      (∀ id, (id, "proxy") ∈ stC1.requests →
        deliveredTo "proxy" (cleanupWs env0 sC1 7).2 st'.proxyCh
          (Frame.httpResponse id none [] none (some "LAN disconnected"))) ∧
      (∀ id, (id, "proxy") ∈ stC1.tunnels →
        deliveredTo "proxy" (cleanupWs env0 sC1 7).2 st'.proxyCh
          (Frame.connectError id "LAN disconnected"))) :=
  ⟨by decide, by decide,
    relay_lan_disconnect_cleanup env0 sC1 7 "s" stC1 (by decide) (by decide)⟩

/-! ### Hello handling lemmas -/

/-- Channel selected by handleHello for a valid role name. -/
def roleChannel (st : SessionState) (role : String) : Channel :=
  if role = "lan" then st.lanCh else st.proxyCh

theorem respondChannel_ws (env : Env) (dest : String) (ch : Channel) (f : Frame) :
    (respondChannel env dest ch f).1.ws = ch.ws := by
  rcases hw : ch.ws with _ | w
  · rcases hs : ch.streams with _ | ⟨r, rest⟩
    · simp [respondChannel, respondChannelNoWs, hw, hs]
    · by_cases ho : env.streamOk r <;>
        simp [respondChannel, respondChannelNoWs, hw, hs, ho]
  · by_cases ho : env.wsOpen w
    · simp [respondChannel, hw, ho]
    · rcases hs : ch.streams with _ | ⟨r, rest⟩
      · simp [respondChannel, respondChannelNoWs, hw, hs, ho]
      · by_cases hr : env.streamOk r <;>
          simp [respondChannel, respondChannelNoWs, hw, hs, ho, hr]

theorem setChannel_fields (st : SessionState) (role : String) (c : Channel) :
    (st.setChannel role c).requests = st.requests ∧
    (st.setChannel role c).tunnels = st.tunnels := by
  unfold SessionState.setChannel
  split_ifs <;> exact ⟨rfl, rfl⟩

theorem roleChannel_setChannel (st : SessionState) (role : String) (c : Channel)
    (hrole : role = "lan" ∨ role = "proxy") :
    roleChannel (st.setChannel role c) role = c := by
  rcases hrole with h | h <;> subst h <;> simp [roleChannel, SessionState.setChannel]

theorem getSession_snd (S : ServerState) (name : String) :
    (getSession S name).2 = (mapGet name S.sessions).getD emptySession := by
  unfold getSession
  cases h : mapGet name S.sessions <;> simp [h]

theorem getSession_connMeta (S : ServerState) (name : String) :
    (getSession S name).1.connMeta = S.connMeta := by
  unfold getSession
  cases h : mapGet name S.sessions <;> simp [h]

theorem getSession_found (S : ServerState) (name : String) (st : SessionState)
    (h : mapGet name S.sessions = some st) : getSession S name = (S, st) := by
  unfold getSession
  rw [h]

theorem handleHello_accepted_eq (env : Env) (S : ServerState) (sess role : String)
    (pv : Option Nat) (w : Nat)
    (hrole : ¬(role ≠ "lan" ∧ role ≠ "proxy"))
    (hpv : ¬(truthyNat pv = true ∧ pv ≠ some PROTOCOL_VERSION)) :
    handleHello env S sess role ⟨some w, pv⟩ =
      ((getSession S sess).1.setSession sess
        ((getSession S sess).2.setChannel role
          (respondChannel env role
            { roleChannel (getSession S sess).2 role with ws := some w }
            (Frame.helloAck role sess PROTOCOL_VERSION)).1),
       (match (roleChannel (getSession S sess).2 role).ws with
        | some old => if old ≠ w then [SAct.closeSock old 1000 "Replaced by new connection"] else []
        | none => []) ++
       (respondChannel env role
         { roleChannel (getSession S sess).2 role with ws := some w }
         (Frame.helloAck role sess PROTOCOL_VERSION)).2.1,
       none) := by
  simp only [handleHello, roleChannel, if_neg hrole, if_neg hpv]

/-- C7: after a hello over a websocket with a valid role and an accepted
protocol version, the pair's channel holds exactly the new socket (at
most one live socket per pair), and when a different socket was
previously installed the relay closes it with code 1000 and the reason
Replaced by new connection. -/
theorem relay_hello_replaces_socket (env : Env) (S : ServerState) (sess role : String)
    (pv : Option Nat) (w : Nat)
    (hrole : role = "lan" ∨ role = "proxy")
    (hpv : truthyNat pv = true → pv = some PROTOCOL_VERSION) :
    ∃ st', mapGet sess (handleHello env S sess role ⟨some w, pv⟩).1.sessions = some st' ∧
      (roleChannel st' role).ws = some w ∧
      (∀ old, (roleChannel ((mapGet sess S.sessions).getD emptySession) role).ws = some old →
        old ≠ w →
        SAct.closeSock old 1000 "Replaced by new connection" ∈
          (handleHello env S sess role ⟨some w, pv⟩).2.1) := by
  have hrole' : ¬(role ≠ "lan" ∧ role ≠ "proxy") := by
    rcases hrole with h | h <;> simp [h]
  have hpv' : ¬(truthyNat pv = true ∧ pv ≠ some PROTOCOL_VERSION) := by
    rintro ⟨h1, h2⟩
    exact h2 (hpv h1)
  rw [handleHello_accepted_eq env S sess role pv w hrole' hpv']
  refine ⟨_, mapGet_mapSet sess _ _, ?_, ?_⟩
  · rw [roleChannel_setChannel _ role _ hrole, respondChannel_ws]
  · intro old hold hne
    have hgs := getSession_snd S sess
    rw [hgs, hold]
    simp [hne]

def stC7 : SessionState := { lanCh := { ws := some 3 } }

def sC7 : ServerState := { sessions := [("s", stC7)] }

theorem relay_hello_replaces_socket_witness :
    ("lan" = "lan" ∨ "lan" = "proxy") ∧
    (truthyNat none = true → (none : Option Nat) = some PROTOCOL_VERSION) ∧
    (∃ st', mapGet "s" (handleHello env0 sC7 "s" "lan" ⟨some 4, none⟩).1.sessions = some st' ∧
      (roleChannel st' "lan").ws = some 4 ∧
      (∀ old, (roleChannel ((mapGet "s" sC7.sessions).getD emptySession) "lan").ws = some old →
        old ≠ 4 →
        SAct.closeSock old 1000 "Replaced by new connection" ∈
          (handleHello env0 sC7 "s" "lan" ⟨some 4, none⟩).2.1)) :=
  ⟨Or.inl rfl, by decide,
    relay_hello_replaces_socket env0 sC7 "s" "lan" none 4 (Or.inl rfl) (by decide)⟩

/-- C9: cleanupWs runs in full for a closing websocket still registered
in connectionMeta even when a newer hello has displaced it: after a new
LAN hello for the same session, the close of the replaced LAN socket
still clears the session's requests and tunnels maps and sends the LAN
disconnected terminal frames to the proxy channel, while the new LAN
socket stays installed. -/
theorem relay_replaced_lan_socket_cleanup (env : Env) (S : ServerState)
    (wOld wNew : Nat) (sess : String) (st : SessionState)
    (hne : wOld ≠ wNew) (hsne : sess ≠ "")
    (hmeta : mapGet wOld S.connMeta = some (sess, "lan"))
    (hsess : mapGet sess S.sessions = some st)
    (hws : st.lanCh.ws = some wOld) :
    ∃ st',
      mapGet sess
        (cleanupWs env (handleWsHello env S wNew (some sess) (some "lan") none).1
          wOld).1.sessions = some st' ∧
      st'.lanCh.ws = some wNew ∧ st'.requests = [] ∧ st'.tunnels = [] ∧
      (∀ id, (id, "proxy") ∈ st.requests →
        deliveredTo "proxy"
          (cleanupWs env (handleWsHello env S wNew (some sess) (some "lan") none).1
            wOld).2 st'.proxyCh
          (Frame.httpResponse id none [] none (some "LAN disconnected"))) ∧
      (∀ id, (id, "proxy") ∈ st.tunnels →
        deliveredTo "proxy"
          (cleanupWs env (handleWsHello env S wNew (some sess) (some "lan") none).1
            wOld).2 st'.proxyCh
          (Frame.connectError id "LAN disconnected")) := by
  have hwh1 : (handleWsHello env S wNew (some sess) (some "lan") none).1 =
      (handleHello env { S with connMeta := mapSet wNew (sess, "lan") S.connMeta }
        sess "lan" ⟨some wNew, none⟩).1 := by
    simp [handleWsHello, hsne]
  set S1 : ServerState := { S with connMeta := mapSet wNew (sess, "lan") S.connMeta } with hS1
  have hs1 : mapGet sess S1.sessions = some st := hsess
  have hfound : getSession S1 sess = (S1, st) := getSession_found _ _ _ hs1
  have hacc := handleHello_accepted_eq env S1 sess "lan" none wNew (by simp)
    (by simp [truthyNat])
  rw [hfound] at hacc
  simp only [roleChannel, reduceIte] at hacc
  have hH1 : (handleHello env S1 sess "lan" ⟨some wNew, none⟩).1 =
      S1.setSession sess (st.setChannel "lan"
        (respondChannel env "lan" { st.lanCh with ws := some wNew }
          (Frame.helloAck "lan" sess PROTOCOL_VERSION)).1) := by
    rw [hacc]
  set stH := st.setChannel "lan"
    (respondChannel env "lan" { st.lanCh with ws := some wNew }
      (Frame.helloAck "lan" sess PROTOCOL_VERSION)).1 with hstH
  have hm2 : mapGet wOld (handleWsHello env S wNew (some sess) (some "lan") none).1.connMeta =
      some (sess, "lan") := by
    rw [hwh1, hH1]
    show mapGet wOld (mapSet wNew (sess, "lan") S.connMeta) = some (sess, "lan")
    rw [mapGet_mapSet_ne wNew wOld _ hne]
    exact hmeta
  have hs2 : mapGet sess (handleWsHello env S wNew (some sess) (some "lan") none).1.sessions =
      some stH := by
    rw [hwh1, hH1]
    exact mapGet_mapSet sess _ _
  obtain ⟨st', ha, hreq0, htun0, hlan, hdreq, hdtun⟩ :=
    cleanupWs_lan_spec env (handleWsHello env S wNew (some sess) (some "lan") none).1
      wOld sess stH hm2 hs2
  have hstHws : stH.lanCh.ws = some wNew := by
    have hr := respondChannel_ws env "lan" { st.lanCh with ws := some wNew }
      (Frame.helloAck "lan" sess PROTOCOL_VERSION)
    rw [hstH]
    show (st.setChannel "lan" _).lanCh.ws = some wNew
    simp [SessionState.setChannel, hr]
  have hdet : detachLan stH wOld = stH := by
    unfold detachLan
    rw [hstHws]
    have hx : ¬ ((some wNew : Option Nat) = some wOld) := by
      intro hx
      exact hne (Option.some.inj hx).symm
    simp [hx]
  have hreqH : stH.requests = st.requests := (setChannel_fields st "lan" _).1
  have htunH : stH.tunnels = st.tunnels := (setChannel_fields st "lan" _).2
  refine ⟨st', ha, ?_, hreq0, htun0, ?_, ?_⟩
  · rw [hlan, hdet]
    exact hstHws
  · intro id hid
    exact hdreq id (hreqH.symm ▸ hid)
  · intro id hid
    exact hdtun id (htunH.symm ▸ hid)

def stC9 : SessionState :=
  { lanCh := { ws := some 7 }, requests := [("r1", "proxy")], tunnels := [("t1", "proxy")] }

def sC9 : ServerState :=
  { sessions := [("s", stC9)], connMeta := [(7, ("s", "lan"))] }

theorem relay_replaced_lan_socket_cleanup_witness :
    (7 : Nat) ≠ 8 ∧ "s" ≠ "" ∧
    mapGet 7 sC9.connMeta = some ("s", "lan") ∧
    mapGet "s" sC9.sessions = some stC9 ∧
    stC9.lanCh.ws = some 7 ∧
    (∃ st',
      mapGet "s"
        (cleanupWs env0 (handleWsHello env0 sC9 8 (some "s") (some "lan") none).1
          7).1.sessions = some st' ∧
      st'.lanCh.ws = some 8 ∧ st'.requests = [] ∧ st'.tunnels = [] ∧
      (∀ id, (id, "proxy") ∈ stC9.requests →
        deliveredTo "proxy"
          (cleanupWs env0 (handleWsHello env0 sC9 8 (some "s") (some "lan") none).1
            7).2 st'.proxyCh
          (Frame.httpResponse id none [] none (some "LAN disconnected"))) ∧
      (∀ id, (id, "proxy") ∈ stC9.tunnels →
        deliveredTo "proxy"
          (cleanupWs env0 (handleWsHello env0 sC9 8 (some "s") (some "lan") none).1
            7).2 st'.proxyCh
          (Frame.connectError id "LAN disconnected"))) :=
  ⟨by decide, by decide, by decide, by decide, by decide,
    relay_replaced_lan_socket_cleanup env0 sC9 7 8 "s" stC9
      (by decide) (by decide) (by decide) (by decide) (by decide)⟩

/-! ### Queueing and drain behavior -/

theorem drainLoop_all_ok (env : Env) (dest : String) (res : Nat)
    (hok : env.streamOk res = true) :
    ∀ q : List Frame, drainLoop env dest res q =
      ([], q.map (SAct.deliver dest none (some res)))
  | [] => rfl
  | f :: rest => by
    simp only [drainLoop, hok, if_true, drainLoop_all_ok env dest res hok rest, List.map]

theorem respondChannel_open_eq (env : Env) (dest : String) (ch : Channel) (f : Frame)
    (w : Nat) (hws : ch.ws = some w) (hopen : env.wsOpen w = true) :
    respondChannel env dest ch f = (ch, [SAct.deliver dest (some w) none f], true) := by
  simp [respondChannel, hws, hopen]

def fC2 : Frame := Frame.connectEnd "x"

def stC2 : SessionState := { lanCh := { queue := [fC2] } }

def sC2 : ServerState := { sessions := [("s", stC2)] }

/-- C2 counterexample: with one frame queued for the absent LAN role, a
websocket hello for that role emits only the hello-ack and leaves the
queued frame undelivered in the queue, so a websocket (re)connect does
not deliver the queued frames. -/
theorem queue_drain_on_ws_hello_cex :
    (handleWsHello env0 sC2 5 (some "s") (some "lan") none).2 =
      [SAct.deliver "lan" (some 5) none (Frame.helloAck "lan" "s" PROTOCOL_VERSION)] ∧
    ((mapGet "s" (handleWsHello env0 sC2 5 (some "s") (some "lan") none).1.sessions).map
      fun st => st.lanCh.queue) = some [fC2] := by
  decide

/-- C2 amended: frames routed to a role with neither a live websocket nor
an attached stream are appended to the channel FIFO queue; attaching a
long-poll stream delivers all queued frames in FIFO order and empties the
queue; a frame arriving after the attach is written to that stream; but a
websocket hello does not drain the queue: the queued frames stay queued
and only the hello-ack is emitted to the new socket. -/
theorem queue_and_stream_drain (env : Env) :
    (∀ (dest : String) (ch : Channel) (f : Frame),
      (ch.ws = none ∨ ∃ w, ch.ws = some w ∧ env.wsOpen w = false) →
      ch.streams = [] →
      respondChannel env dest ch f = ({ ch with queue := ch.queue ++ [f] }, [], false)) ∧
    (∀ (dest : String) (ch : Channel) (res : Nat),
      env.streamOk res = true →
      attachStream env dest ch res =
        ({ ch with streams := ch.streams ++ [res], queue := [] },
         ch.queue.map (SAct.deliver dest none (some res)))) ∧
    (∀ (dest : String) (ch : Channel) (res : Nat) (f : Frame),
      ch.ws = none → ch.streams = [] → env.streamOk res = true →
      respondChannel env dest (attachStream env dest ch res).1 f =
        ((attachStream env dest ch res).1, [SAct.deliver dest none (some res) f], true)) ∧
    (∀ (S : ServerState) (sess role : String) (w : Nat),
      (role = "lan" ∨ role = "proxy") → env.wsOpen w = true →
      ∃ st', mapGet sess (handleHello env S sess role ⟨some w, none⟩).1.sessions = some st' ∧
        (roleChannel st' role).queue =
          (roleChannel ((mapGet sess S.sessions).getD emptySession) role).queue) := by
  refine ⟨?_, ?_, ?_, ?_⟩
  · intro dest ch f hv hs
    rcases hv with hv | ⟨w, hv, ho⟩
    · simp [respondChannel, respondChannelNoWs, hv, hs]
    · simp [respondChannel, respondChannelNoWs, hv, hs, ho]
  · intro dest ch res hok
    simp [attachStream, drainLoop_all_ok env dest res hok]
  · intro dest ch res f hw hs hok
    have h1 : (attachStream env dest ch res).1.ws = none := by
      simp [attachStream, hw]
    have h2 : (attachStream env dest ch res).1.streams = [res] := by
      simp [attachStream, hs]
    simp [respondChannel, respondChannelNoWs, h1, h2, hok]
  · intro S sess role w hrole hopen
    have hrole' : ¬(role ≠ "lan" ∧ role ≠ "proxy") := by
      rcases hrole with h | h <;> simp [h]
    have hpv' : ¬(truthyNat none = true ∧ (none : Option Nat) ≠ some PROTOCOL_VERSION) := by
      simp [truthyNat]
    rw [handleHello_accepted_eq env S sess role none w hrole' hpv']
    refine ⟨_, mapGet_mapSet sess _ _, ?_⟩
    rw [roleChannel_setChannel _ role _ hrole]
    rw [respondChannel_open_eq env role _ _ w rfl hopen]
    rw [getSession_snd]

theorem queue_and_stream_drain_witness :
    (respondChannel env0 "lan" {} fC2 = ({ queue := [fC2] }, [], false)) ∧
    (attachStream env0 "lan" { queue := [fC2] } 3 =
      ({ streams := [3] }, [SAct.deliver "lan" none (some 3) fC2])) ∧
    (respondChannel env0 "lan" (attachStream env0 "lan" ({} : Channel) 3).1 fC2 =
      ((attachStream env0 "lan" ({} : Channel) 3).1,
        [SAct.deliver "lan" none (some 3) fC2], true)) ∧
    (∃ st', mapGet "s" (handleHello env0 sC2 "s" "lan" ⟨some 5, none⟩).1.sessions = some st' ∧
      (roleChannel st' "lan").queue =
        (roleChannel ((mapGet "s" sC2.sessions).getD emptySession) "lan").queue) :=
  ⟨(queue_and_stream_drain env0).1 "lan" {} fC2 (Or.inl rfl) rfl,
   (queue_and_stream_drain env0).2.1 "lan" { queue := [fC2] } 3 rfl,
   (queue_and_stream_drain env0).2.2.1 "lan" {} 3 fC2 rfl rfl rfl,
   (queue_and_stream_drain env0).2.2.2 sC2 "s" "lan" 5 (Or.inl rfl) rfl⟩

/-! ### Protocol version mismatch -/

theorem getSession_get (S : ServerState) (name : String) :
    mapGet name (getSession S name).1.sessions = some ((getSession S name).2) := by
  unfold getSession
  cases h : mapGet name S.sessions with
  | some st => simpa [h]
  | none => simpa [h] using mapGet_append_nil name emptySession S.sessions h

theorem handleHello_rejected_eq (env : Env) (S : ServerState) (sess role : String)
    (sender : Sender)
    (h : (role ≠ "lan" ∧ role ≠ "proxy") ∨
      (truthyNat sender.protocolVersion = true ∧
        sender.protocolVersion ≠ some PROTOCOL_VERSION)) :
    ∃ e, handleHello env S sess role sender = ((getSession S sess).1, [], some e) := by
  simp only [handleHello]
  by_cases hrole : role ≠ "lan" ∧ role ≠ "proxy"
  · exact ⟨_, by rw [if_pos hrole]⟩
  · have hpv : truthyNat sender.protocolVersion = true ∧
        sender.protocolVersion ≠ some PROTOCOL_VERSION := by
      rcases h with h | h
      · exact absurd h hrole
      · exact h
    exact ⟨_, by rw [if_neg hrole, if_pos hpv]⟩

/-- C5 counterexample: a websocket hello with a mismatched protocol
version produces no error frame and no close action at all (the error
result of handleHello is discarded), refuting that the relay responds
with an error frame and closes; only the socket non-installation part of
the claim holds, as the session channel is left without a socket. -/
theorem hello_version_mismatch_cex :
    (handleWsHello env0 {} 7 (some "s") (some "lan") (some (PROTOCOL_VERSION + 1))).2 = [] ∧
    ((mapGet "s"
        (handleWsHello env0 {} 7 (some "s") (some "lan")
          (some (PROTOCOL_VERSION + 1))).1.sessions).map
      fun st => st.lanCh.ws) = some none := by
  decide

/-- C5 amended: a hello whose protocolVersion is present (truthy) and
unequal to the server's is rejected: the sender's socket is not installed
into the session channel and no hello-ack is sent (the session state is
left exactly as created), but over the websocket path the relay emits no
action at all — no error frame is sent to the sender and the connection
is not closed, because handleWsMessage discards the error result; the
connection metadata is still recorded. -/
theorem hello_version_mismatch_rejected (env : Env) (S : ServerState) (w : Nat)
    (sess role : String) (n : Nat)
    (hsne : sess ≠ "") (hrne : role ≠ "")
    (hn0 : n ≠ 0) (hnv : n ≠ PROTOCOL_VERSION) :
    (handleWsHello env S w (some sess) (some role) (some n)).2 = [] ∧
    mapGet sess (handleWsHello env S w (some sess) (some role) (some n)).1.sessions =
      some ((mapGet sess S.sessions).getD emptySession) ∧
    mapGet w (handleWsHello env S w (some sess) (some role) (some n)).1.connMeta =
      some (sess, role) := by
  have hwh : handleWsHello env S w (some sess) (some role) (some n) =
      ((handleHello env { S with connMeta := mapSet w (sess, role) S.connMeta }
          sess role ⟨some w, some n⟩).1,
       (handleHello env { S with connMeta := mapSet w (sess, role) S.connMeta }
          sess role ⟨some w, some n⟩).2.1) := by
    simp [handleWsHello, hsne, hrne]
  set S1 : ServerState := { S with connMeta := mapSet w (sess, role) S.connMeta } with hS1
  by_cases hrole : role ≠ "lan" ∧ role ≠ "proxy"
  · obtain ⟨e, he⟩ := handleHello_rejected_eq env S1 sess role ⟨some w, some n⟩ (Or.inl hrole)
    rw [hwh, he]
    refine ⟨rfl, ?_, ?_⟩
    · rw [getSession_get, getSession_snd]
    · rw [getSession_connMeta]
      exact mapGet_mapSet w _ _
  · obtain ⟨e, he⟩ := handleHello_rejected_eq env S1 sess role ⟨some w, some n⟩
      (Or.inr ⟨by simpa [truthyNat] using hn0, by simpa using hnv⟩)
    rw [hwh, he]
    refine ⟨rfl, ?_, ?_⟩
    · rw [getSession_get, getSession_snd]
    · rw [getSession_connMeta]
      exact mapGet_mapSet w _ _

theorem hello_version_mismatch_rejected_witness :
    "s" ≠ "" ∧ "lan" ≠ "" ∧ PROTOCOL_VERSION + 1 ≠ 0 ∧
    PROTOCOL_VERSION + 1 ≠ PROTOCOL_VERSION ∧
    ((handleWsHello env0 {} 7 (some "s") (some "lan") (some (PROTOCOL_VERSION + 1))).2 = [] ∧
     mapGet "s"
        (handleWsHello env0 {} 7 (some "s") (some "lan")
          (some (PROTOCOL_VERSION + 1))).1.sessions =
       some ((mapGet "s" (ServerState.sessions {})).getD emptySession) ∧
     mapGet 7
        (handleWsHello env0 {} 7 (some "s") (some "lan")
          (some (PROTOCOL_VERSION + 1))).1.connMeta = some ("s", "lan")) :=
  ⟨by decide, by decide, by decide, by decide,
    hello_version_mismatch_rejected env0 {} 7 "s" "lan" (PROTOCOL_VERSION + 1)
      (by decide) (by decide) (by decide) (by decide)⟩

/-! ### Local proxy theorems -/

theorem flushQueue_map (id : String) :
    ∀ q : List (List Byte), flushQueue id q =
      q.map fun c => PAct.sendFrame (Frame.connectData id (encodeBody (some c)))
  | [] => rfl
  | c :: rest => by
    simp only [flushQueue, flushQueue_map id rest, List.map]

/-- C4: on connect-ack for a pending tunnel, the proxy writes the 200
Connection Established preamble to the client socket, marks the tunnel
acked, forwards the stashed head bytes (when non-empty) as one
connect-data frame and then every pre-ack queued chunk as connect-data
frames in queue order; while unacked, a client chunk is appended at the
tail of the pre-ack queue, preserving arrival order. -/
theorem proxy_connect_ack_flush (st : ProxyState) (id : String) (t : Tunnel)
    (ht : mapGet id st.tunnels = some t) :
    (∃ t', mapGet id (handleConnectAckMsg st id).1.tunnels = some t' ∧
      t'.acked = true ∧ t'.queue = [] ∧ t'.clientSock = t.clientSock) ∧
    (handleConnectAckMsg st id).2 =
      PAct.writeSock t.clientSock "HTTP/1.1 200 Connection Established\r\n\r\n" ::
      ((if t.head ≠ [] then
          [PAct.sendFrame (Frame.connectData id (encodeBody (some t.head)))] else []) ++
        t.queue.map fun c => PAct.sendFrame (Frame.connectData id (encodeBody (some c)))) ∧
    (∀ (st2 : ProxyState) (t2 : Tunnel) (chunk : List Byte),
      mapGet id st2.tunnels = some t2 → t2.acked = false →
      (handleClientData st2 id chunk).1.tunnels =
        mapSet id { t2 with queue := t2.queue ++ [chunk] } st2.tunnels ∧
      (handleClientData st2 id chunk).2 = []) := by
  refine ⟨⟨{ t with acked := true, queue := [] }, ?_, rfl, rfl, rfl⟩, ?_, ?_⟩
  · simp only [handleConnectAckMsg, ht]
    exact mapGet_mapSet id _ _
  · simp only [handleConnectAckMsg, ht, flushQueue_map]
    rfl
  · intro st2 t2 chunk ht2 hack
    simp [handleClientData, ht2, hack]

def byte1 : Byte := 1
def byte2 : Byte := 2
def byte3 : Byte := 3

def tC4 : Tunnel := { clientSock := 9, acked := false, queue := [[byte2], [byte3]], head := [byte1] }

def pC4 : ProxyState := { tunnels := [("t", tC4)] }

theorem proxy_connect_ack_flush_witness :
    mapGet "t" pC4.tunnels = some tC4 ∧
    ((∃ t', mapGet "t" (handleConnectAckMsg pC4 "t").1.tunnels = some t' ∧
      t'.acked = true ∧ t'.queue = [] ∧ t'.clientSock = tC4.clientSock) ∧
    (handleConnectAckMsg pC4 "t").2 =
      PAct.writeSock tC4.clientSock "HTTP/1.1 200 Connection Established\r\n\r\n" ::
      ((if tC4.head ≠ [] then
          [PAct.sendFrame (Frame.connectData "t" (encodeBody (some tC4.head)))] else []) ++
        tC4.queue.map fun c => PAct.sendFrame (Frame.connectData "t" (encodeBody (some c)))) ∧
    (∀ (st2 : ProxyState) (t2 : Tunnel) (chunk : List Byte),
      mapGet "t" st2.tunnels = some t2 → t2.acked = false →
      (handleClientData st2 "t" chunk).1.tunnels =
        mapSet "t" { t2 with queue := t2.queue ++ [chunk] } st2.tunnels ∧
      (handleClientData st2 "t" chunk).2 = [])) :=
  ⟨by decide, proxy_connect_ack_flush pC4 "t" tC4 (by decide)⟩

theorem mapGet_mapDel {α β : Type} [DecidableEq α] (k : α) :
    ∀ l : List (α × β), mapGet k (mapDel k l) = none
  | [] => rfl
  | (k', v) :: rest => by
    have ih := mapGet_mapDel k rest
    by_cases h : k' = k
    · subst h
      simpa [mapDel, List.filter] using ih
    · simpa [mapDel, List.filter, mapGet, h] using ih

/-- C6: when the 30 second timer of a pending http-request fires, the
proxy deletes the pending entry and answers 504 Gateway Timeout to the
browser; an http-response frame carrying that id arriving afterwards is
discarded with no state change and no browser action. -/
theorem proxy_timeout_504_then_discard (st : ProxyState) (id : String) (e : PendEntry)
    (he : mapGet id st.pendingHttp = some e) (hh : e.headersSent = false) :
    mapGet id (timeoutFire st id e).1.pendingHttp = none ∧
    (timeoutFire st id e).2 =
      [PAct.writeHead e.res 504 [("content-type", "text/plain")],
       PAct.endRes e.res "Gateway Timeout"] ∧
    (∀ (status : Option Nat) (headers : List (String × String))
        (bodyBase64 : Option String) (error : Option String),
      handleHttpResponseMsg (timeoutFire st id e).1 id status headers bodyBase64 error =
        ((timeoutFire st id e).1, [])) := by
  have hdel : mapGet id (timeoutFire st id e).1.pendingHttp = none := by
    simp only [timeoutFire]
    exact mapGet_mapDel id _
  refine ⟨hdel, ?_, ?_⟩
  · simp [timeoutFire, hh]
  · intro status headers bodyBase64 error
    simp only [handleHttpResponseMsg, hdel]

def eC6 : PendEntry := { res := 11, headersSent := false }

def pC6 : ProxyState := { pendingHttp := [("q", eC6)] }

theorem proxy_timeout_504_then_discard_witness :
    mapGet "q" pC6.pendingHttp = some eC6 ∧ eC6.headersSent = false ∧
    (mapGet "q" (timeoutFire pC6 "q" eC6).1.pendingHttp = none ∧
    (timeoutFire pC6 "q" eC6).2 =
      [PAct.writeHead eC6.res 504 [("content-type", "text/plain")],
       PAct.endRes eC6.res "Gateway Timeout"] ∧
    (∀ (status : Option Nat) (headers : List (String × String))
        (bodyBase64 : Option String) (error : Option String),
      handleHttpResponseMsg (timeoutFire pC6 "q" eC6).1 "q" status headers bodyBase64 error =
        ((timeoutFire pC6 "q" eC6).1, []))) :=
  ⟨by decide, by decide, proxy_timeout_504_then_discard pC6 "q" eC6 (by decide) (by decide)⟩

/-! ### LAN agent theorems -/

/-- C10: a connect-data frame whose id has no open tunnel socket is
answered with a connect-error frame carrying that id and the message
Unknown tunnel, with no other effect: the state, and in particular the
tunnels map, is returned unchanged. -/
theorem lan_unknown_tunnel_error (st : LanState) (id : String) (d : String)
    (h : mapGet id st.tunnels = none) :
    lanHandleConnectData st id d =
      (st, [LAct.send (Frame.connectError id "Unknown tunnel")]) := by
  simp [lanHandleConnectData, h]

theorem lan_unknown_tunnel_error_witness :
    mapGet "z" (LanState.tunnels {}) = none ∧
    lanHandleConnectData {} "z" "AAAA" =
      ({}, [LAct.send (Frame.connectError "z" "Unknown tunnel")]) :=
  ⟨by decide, lan_unknown_tunnel_error {} "z" "AAAA" (by decide)⟩

/-- Frame is one of the two replies a connect-start can be answered
with. -/
def isStartReply : Frame → Bool
  | .connectAck _ => true
  | .connectError _ _ => true
  | _ => false

/-- C3 counterexample: when the connect succeeds and the established
socket later reports an error, the LAN agent emits connect-ack and then
connect-error for the same id, so it does not emit exactly one of the
two over the tunnel's lifetime. -/
theorem lan_connect_single_reply_cex :
    lanConnectStart "t" (some "h") (some 443) ConnOutcome.ok [SockEvent.sockErr "boom"] =
      [Frame.connectAck "t", Frame.connectError "t" "boom"] ∧
    ((lanConnectStart "t" (some "h") (some 443) ConnOutcome.ok
        [SockEvent.sockErr "boom"]).countP isStartReply ≠ 1) := by
  decide

theorem lanSockFrames_no_ack (id : String) :
    ∀ (events : List SockEvent) (g : Frame), g ∈ lanSockFrames id events →
      ∀ j, g ≠ Frame.connectAck j
  | [], g, hg => absurd hg (List.not_mem_nil g)
  | .data c :: rest, g, hg => by
    intro j
    rcases List.mem_cons.mp hg with h | h
    · subst h; simp
    · exact lanSockFrames_no_ack id rest g h j
  | .sockErr m :: rest, g, hg => by
    intro j
    rcases List.mem_cons.mp hg with h | h
    · subst h; simp
    · exact absurd h (List.not_mem_nil g)
  | .sockEnd :: rest, g, hg => by
    intro j
    rcases List.mem_cons.mp hg with h | h
    · subst h; simp
    · exact absurd h (List.not_mem_nil g)

/-- C3 amended: for every connect-start, the first frame the agent emits
for that id is exactly one of connect-ack (the connect succeeded) or
connect-error (invalid host or port, or the connect failed), so it
precedes every connect-data for that id, and connect-ack is never
emitted again; however, after a connect-ack, a later socket error
additionally emits a connect-error for the same id, so over the whole
tunnel lifetime both replies can appear. -/
theorem lan_connect_start_first_reply (id : String) (host : Option String)
    (port : Option Nat) (outcome : ConnOutcome) (events : List SockEvent) :
    ∃ f fs, lanConnectStart id host port outcome events = f :: fs ∧
      (f = Frame.connectAck id ∨ ∃ m, f = Frame.connectError id m) ∧
      (f = Frame.connectAck id ↔
        ((truthyStr host && truthyNat port) = true ∧ outcome = ConnOutcome.ok)) ∧
      (∀ g ∈ fs, ∀ j, g ≠ Frame.connectAck j) := by
  cases hv : (truthyStr host && truthyNat port) with
  | false =>
    refine ⟨Frame.connectError id "Invalid host/port", [], ?_, Or.inr ⟨_, rfl⟩, ?_, ?_⟩
    · simp [lanConnectStart, hv]
    · constructor
      · intro h; cases h
      · rintro ⟨h1, -⟩; cases h1
    · intro g hg; exact absurd hg (List.not_mem_nil g)
  | true =>
    cases outcome with
    | fail msg =>
      refine ⟨Frame.connectError id (msgOr "Socket error" msg), [], ?_,
        Or.inr ⟨_, rfl⟩, ?_, ?_⟩
      · simp [lanConnectStart, hv]
      · constructor
        · intro h; cases h
        · rintro ⟨-, h2⟩; cases h2
      · intro g hg; exact absurd hg (List.not_mem_nil g)
    | ok =>
      refine ⟨Frame.connectAck id, lanSockFrames id events, ?_, Or.inl rfl, ?_, ?_⟩
      · simp [lanConnectStart, hv]
      · exact ⟨fun _ => ⟨rfl, rfl⟩, fun _ => rfl⟩
      · exact lanSockFrames_no_ack id events
